import Mathlib

/-!
Verification of the asyncbolt Bolt-protocol implementation.

This file gives a shallow embedding of the parts of the asyncbolt source
relevant to the frozen claims: the PackStream codec (asyncbolt/messaging.py),
the chunked write and read buffers (asyncbolt/buffer.py), the message parser
(asyncbolt/parser.py), the server protocol state machine
(asyncbolt/protocol.py) and the server session task queue (asyncbolt/server.py).

Bytes are modelled as natural numbers below 256 and byte buffers as lists.
Python exceptions are modelled with an explicit error type: a function that
can raise returns an `Except` or carries an `Option PyErr` next to the
mutated state (Python leaves partially written buffers in place when an
exception propagates, so the state at raise time is kept).
-/

namespace AsyncBolt

/-- Python exception kinds raised by the embedded code paths. -/
inductive PyErr where
  /-- asyncbolt.exception.ProtocolError -/
  | protocolError
  /-- asyncbolt.exception.BufferError -/
  | bufferError
  /-- struct.error from the struct pack/unpack helpers -/
  | structError
  /-- TypeError, e.g. a call with a missing required positional argument -/
  | typeError
  /-- UnicodeEncodeError / UnicodeDecodeError from str.encode / bytes.decode -/
  | unicodeError
  /-- modelling artifact: the fuel of the bounded decoder ran out -/
  | outOfFuel
deriving DecidableEq, Repr

/-- Big-endian byte encoding of a natural number on `w` bytes
(the low `8 * w` bits, as produced by struct.pack with an in-range value). -/
def beBytes : Nat → Nat → List Nat
  | 0, _ => []
  | w + 1, n => beBytes w (n / 256) ++ [n % 256]

/-- Big-endian value of a byte list (struct.unpack of an unsigned field). -/
def beVal (bs : List Nat) : Nat := bs.foldl (fun a b => a * 256 + b) 0

/-- Two's complement representation of an integer on `w` bytes, as a Nat.
This is what struct.pack emits for the signed formats b, h, l, q when the
value is inside the format's range. -/
def twosComp (w : Nat) (i : Int) : Nat := (i.emod ((2 : Int) ^ (8 * w))).toNat

/-- Signed big-endian value of `w` bytes (struct.unpack of b, h, l, q). -/
def sintOfBytes (w : Nat) (bs : List Nat) : Int :=
  let u := beVal bs
  if u < 2 ^ (8 * w - 1) then (u : Int) else (u : Int) - (2 : Int) ^ (8 * w)

/-- Read one byte from a byte stream, as buf.read(1) plus unpack_uint_8. -/
def read1 (bs : List Nat) : Except PyErr (Nat × List Nat) :=
  match bs with
  | [] => .error .bufferError
  | b :: r => .ok (b, r)

/-- Read `n` bytes from a byte stream, as buf.read(n) plus a struct unpack. -/
def readN (n : Nat) (bs : List Nat) : Except PyErr (List Nat × List Nat) :=
  if n ≤ bs.length then .ok (bs.take n, bs.drop n) else .error .bufferError

/-- The Python value universe seen by the codec in asyncbolt/messaging.py.
Python str values are carried as their list of Unicode code points, so that
len(str) (a character count) and the UTF-8 encoding (a byte count) can be
told apart exactly as in the source. Python float values are carried as the
64-bit IEEE-754 big-endian bit pattern that struct.pack would produce, which
is what the codec reads and writes. dict and OrderedDict are both carried as
insertion-ordered key/value lists. Decoded structures (the namedtuples built
by unpack_structure) are carried by `struct`; values of any type outside the
SERIALIZERS table are carried by `other` with their type name. -/
inductive Val where
  | null
  | bool (b : Bool)
  | int (i : Int)
  | float (bits : Nat)
  | str (cps : List Nat)
  | list (xs : List Val)
  | dict (kvs : List (Val × Val))
  | struct (name : String) (sig : Nat) (fields : List Val)
  | other (ty : String)
deriving Repr

/-- UTF-8 encoding of one code point; Python's encoder rejects surrogates. -/
def utf8Char (c : Nat) : Option (List Nat) :=
  if c < 0x80 then some [c]
  else if c < 0x800 then some [0xC0 ||| c / 64, 0x80 ||| c % 64]
  else if c < 0x10000 then
    if 0xD800 ≤ c ∧ c < 0xE000 then none
    else some [0xE0 ||| c / 4096, 0x80 ||| c / 64 % 64, 0x80 ||| c % 64]
  else if c < 0x110000 then
    some [0xF0 ||| c / 262144, 0x80 ||| c / 4096 % 64, 0x80 ||| c / 64 % 64,
          0x80 ||| c % 64]
  else none

/-- UTF-8 encoding of a code point sequence (str.encode of a Python str). -/
def utf8Encode (cps : List Nat) : Option (List Nat) :=
  (cps.mapM utf8Char).map List.flatten

/-- UTF-8 decoding (bytes.decode), rejecting malformed sequences. -/
def utf8Decode : List Nat → Option (List Nat)
  | [] => some []
  | b :: bs =>
    if b < 0x80 then (utf8Decode bs).map (b :: ·)
    else if 0xC2 ≤ b ∧ b < 0xE0 then
      match bs with
      | c1 :: bs' =>
        if 0x80 ≤ c1 ∧ c1 < 0xC0 then
          (utf8Decode bs').map (((b - 0xC0) * 64 + (c1 - 0x80)) :: ·)
        else none
      | _ => none
    else if 0xE0 ≤ b ∧ b < 0xF0 then
      match bs with
      | c1 :: c2 :: bs' =>
        if 0x80 ≤ c1 ∧ c1 < 0xC0 ∧ 0x80 ≤ c2 ∧ c2 < 0xC0 then
          let c := (b - 0xE0) * 4096 + (c1 - 0x80) * 64 + (c2 - 0x80)
          if 0x800 ≤ c ∧ ¬ (0xD800 ≤ c ∧ c < 0xE000) then
            (utf8Decode bs').map (c :: ·)
          else none
        else none
      | _ => none
    else if 0xF0 ≤ b ∧ b < 0xF5 then
      match bs with
      | c1 :: c2 :: c3 :: bs' =>
        if 0x80 ≤ c1 ∧ c1 < 0xC0 ∧ 0x80 ≤ c2 ∧ c2 < 0xC0 ∧
            0x80 ≤ c3 ∧ c3 < 0xC0 then
          let c := (b - 0xF0) * 262144 + (c1 - 0x80) * 4096 +
            (c2 - 0x80) * 64 + (c3 - 0x80)
          if 0x10000 ≤ c ∧ c < 0x110000 then (utf8Decode bs').map (c :: ·)
          else none
        else none
      | _ => none
    else none

/-- pack_bool from messaging.py: 0xC3 for True, 0xC2 for False. -/
def pack_bool (b : Bool) (buf : List Nat) : List Nat × Option PyErr :=
  if b then (buf ++ [0xC3], Option.none) else (buf ++ [0xC2], Option.none)

/-- pack_str from messaging.py. The header size is len(val), the CHARACTER
count of the Python str, while the bytes written afterwards are the UTF-8
encoding; the source computes the header before encoding. -/
def pack_str (cps : List Nat) (buf : List Nat) : List Nat × Option PyErr :=
  let size := cps.length
  let hdr? : Except PyErr (List Nat) :=
    if size < 16 then .ok [0x80 ||| size]
    else if size < 256 then .ok (0xD0 :: beBytes 1 size)
    else if size < 65536 then .ok (0xD1 :: beBytes 2 size)
    else if size < 4294967296 then .ok (0xD2 :: beBytes 4 size)
    else .error .bufferError
  match hdr? with
  | .error e => (buf, some e)
  | .ok hdr =>
    match utf8Encode cps with
    | some bytes => (buf ++ hdr ++ bytes, Option.none)
    | Option.none => (buf ++ hdr, some .unicodeError)

/-- pack_float from messaging.py: marker 0xC1 then 8 big-endian IEEE bytes. -/
def pack_float (bits : Nat) (buf : List Nat) : List Nat × Option PyErr :=
  (buf ++ [0xC1] ++ beBytes 8 bits, Option.none)

/-- pack_int from messaging.py, branch for branch. Note the second branch:
a value v with -16 <= v < 0 is encoded as the single byte 0xF0 | abs(v). -/
def pack_int (i : Int) (buf : List Nat) : List Nat × Option PyErr :=
  if 0 ≤ i ∧ i < 128 then (buf ++ [i.toNat], Option.none)
  else if -16 ≤ i ∧ i < 0 then (buf ++ [0xF0 ||| i.natAbs], Option.none)
  else if -128 ≤ i ∧ i < -16 then
    (buf ++ [0xC8] ++ beBytes 1 (twosComp 1 i), Option.none)
  else if -32768 ≤ i ∧ i < 32768 then
    (buf ++ [0xC9] ++ beBytes 2 (twosComp 2 i), Option.none)
  else if -2147483648 ≤ i ∧ i < 2147483648 then
    (buf ++ [0xCA] ++ beBytes 4 (twosComp 4 i), Option.none)
  else if -9223372036854775808 ≤ i ∧ i < 9223372036854775808 then
    (buf ++ [0xCB] ++ beBytes 8 (twosComp 8 i), Option.none)
  else (buf, some .bufferError)

/-- The element loop of pack_list, parameterized by the packer applied to
each element: pack each one, propagating the first raised exception (the
buffer keeps the bytes written before the raise). -/
def packSeq (p : Val → List Nat → List Nat × Option PyErr) (xs : List Val)
    (buf : List Nat) : List Nat × Option PyErr :=
  match xs with
  | [] => (buf, Option.none)
  | v :: vs =>
    match p v buf with
    | (buf', Option.none) => packSeq p vs buf'
    | (buf', some e) => (buf', some e)

/-- The pair loop of pack_map: pack each key then value, propagating. -/
def packPairs (p : Val → List Nat → List Nat × Option PyErr)
    (kvs : List (Val × Val)) (buf : List Nat) : List Nat × Option PyErr :=
  match kvs with
  | [] => (buf, Option.none)
  | (k, v) :: rest =>
    match p k buf with
    | (buf', Option.none) =>
      match p v buf' with
      | (buf'', Option.none) => packPairs p rest buf''
      | (buf'', some e) => (buf'', some e)
    | (buf', some e) => (buf', some e)

/-- pack_map from messaging.py: size header from len(val), then the packed
(key, value) pairs in insertion order. The packer for the entries (pack in
the source's module scope) is a parameter. -/
def pack_map (p : Val → List Nat → List Nat × Option PyErr)
    (kvs : List (Val × Val)) (buf : List Nat) : List Nat × Option PyErr :=
  let size := kvs.length
  if size < 16 then packPairs p kvs (buf ++ [0xA0 ||| size])
  else if size < 256 then packPairs p kvs (buf ++ [0xD8] ++ beBytes 1 size)
  else if size < 65536 then packPairs p kvs (buf ++ [0xD9] ++ beBytes 2 size)
  else if size < 4294967296 then
    packPairs p kvs (buf ++ [0xDA] ++ beBytes 4 size)
  else (buf, some .bufferError)

/-- pack_list from messaging.py: size header from len(val), then elements. -/
def pack_list (p : Val → List Nat → List Nat × Option PyErr) (xs : List Val)
    (buf : List Nat) : List Nat × Option PyErr :=
  let size := xs.length
  if size < 16 then packSeq p xs (buf ++ [0x90 ||| size])
  else if size < 256 then packSeq p xs (buf ++ [0xD4] ++ beBytes 1 size)
  else if size < 65536 then packSeq p xs (buf ++ [0xD5] ++ beBytes 2 size)
  else if size < 4294967296 then
    packSeq p xs (buf ++ [0xD6] ++ beBytes 4 size)
  else (buf, some .bufferError)

/-- pack from messaging.py, fuel-bounded: None writes the single 0xC0
marker; otherwise the serializer is looked up by exact type in SERIALIZERS
(bool, str, float, int, dict, list, OrderedDict), and a missing key raises
ProtocolError before anything is written. Decoded-structure namedtuples and
all other types are not in the table. The fuel counts nesting depth only;
the wrapper below supplies CPython's own recursion limit. -/
def packF : Nat → Val → List Nat → List Nat × Option PyErr
  | 0, _, buf => (buf, some .outOfFuel)
  | fuel + 1, v, buf =>
    match v with
    | .null => (buf ++ [0xC0], Option.none)
    | .bool b => pack_bool b buf
    | .str s => pack_str s buf
    | .float bits => pack_float bits buf
    | .int i => pack_int i buf
    | .dict kvs => pack_map (packF fuel) kvs buf
    | .list xs => pack_list (packF fuel) xs buf
    | .struct _ _ _ => (buf, some .protocolError)
    | .other _ => (buf, some .protocolError)

/-- pack applied with depth budget 1000: CPython's default recursion limit,
past which the Python original raises RecursionError anyway. -/
def pack (v : Val) (buf : List Nat) : List Nat × Option PyErr :=
  packF 1000 v buf

/-- Elementwise equality of value lists, given the element comparison. -/
def beqList (b : Val → Val → Bool) : List Val → List Val → Bool
  | [], [] => true
  | x :: xs, y :: ys => b x y && beqList b xs ys
  | _, _ => false

/-- Elementwise equality of key/value pair lists. -/
def beqPairs (b : Val → Val → Bool) :
    List (Val × Val) → List (Val × Val) → Bool
  | [], [] => true
  | (k, v) :: xs, (k', v') :: ys => b k k' && b v v' && beqPairs b xs ys
  | _, _ => false

/-- Structural equality of Python values as used by dict key lookup,
fuel-bounded on nesting depth. (Python's numeric cross-type equalities,
e.g. True == 1, are not reproduced; no decoded map in the claims depends
on them.) -/
def beqF : Nat → Val → Val → Bool
  | 0, _, _ => false
  | fuel + 1, a, b =>
    match a, b with
    | .null, .null => true
    | .bool x, .bool y => x == y
    | .int x, .int y => x == y
    | .float x, .float y => x == y
    | .str x, .str y => x == y
    | .list xs, .list ys => beqList (beqF fuel) xs ys
    | .dict x, .dict y => beqPairs (beqF fuel) x y
    | .struct n s f, .struct n' s' f' =>
      n == n' && s == s' && beqList (beqF fuel) f f'
    | .other x, .other y => x == y
    | _, _ => false

/-- Value equality with depth budget 1000, CPython's recursion limit. -/
def Val.beq (a b : Val) : Bool := beqF 1000 a b

/-- Python dict assignment output[k] = v on an insertion-ordered dict:
an existing key keeps its position (and original key object) and gets the
new value; a new key is appended. -/
def dictInsert (kvs : List (Val × Val)) (k v : Val) : List (Val × Val) :=
  match kvs with
  | [] => [(k, v)]
  | (k', v') :: rest =>
    if Val.beq k' k then (k', v) :: rest else (k', v') :: dictInsert rest k v

/-- unpack_null_float_or_bool from messaging.py. Only marker 0xC1 reads
further bytes; markers other than the four listed fall through and return
None implicitly (unreachable through the dispatch table). -/
def unpack_null_float_or_bool (marker : Nat) (bs : List Nat) :
    Except PyErr (Val × List Nat) :=
  if marker = 0xC1 then do
    let (bytes, rest) ← readN 8 bs
    .ok (.float (beVal bytes), rest)
  else if marker = 0xC0 then .ok (.null, bs)
  else if marker = 0xC3 then .ok (.bool true, bs)
  else if marker = 0xC2 then .ok (.bool false, bs)
  else .ok (.null, bs)

/-- unpack_int from messaging.py: fixed-width big-endian signed decode. -/
def unpack_int (marker : Nat) (bs : List Nat) :
    Except PyErr (Val × List Nat) :=
  if marker = 0xC8 then do
    let (bytes, rest) ← readN 1 bs
    .ok (.int (sintOfBytes 1 bytes), rest)
  else if marker = 0xC9 then do
    let (bytes, rest) ← readN 2 bs
    .ok (.int (sintOfBytes 2 bytes), rest)
  else if marker = 0xCA then do
    let (bytes, rest) ← readN 4 bs
    .ok (.int (sintOfBytes 4 bytes), rest)
  else if marker = 0xCB then do
    let (bytes, rest) ← readN 8 bs
    .ok (.int (sintOfBytes 8 bytes), rest)
  else .error .protocolError

/-- unpack_str from messaging.py: size from the marker tier, then size BYTES
read and UTF-8 decoded. -/
def unpack_str (marker : Nat) (bs : List Nat) :
    Except PyErr (Val × List Nat) := do
  let (size, bs) ←
    if marker &&& 0xF0 = 0x80 then pure (marker &&& 0x0F, bs)
    else if marker = 0xD0 then do
      let (b, r) ← readN 1 bs; pure (beVal b, r)
    else if marker = 0xD1 then do
      let (b, r) ← readN 2 bs; pure (beVal b, r)
    else if marker = 0xD2 then do
      let (b, r) ← readN 4 bs; pure (beVal b, r)
    else .error .protocolError
  let (bytes, rest) ← readN size bs
  match utf8Decode bytes with
  | some cps => .ok (.str cps, rest)
  | Option.none => .error .unicodeError

/-- unpack_neg_tiny_int from messaging.py: the value is -(marker & 0x0F). -/
def unpack_neg_tiny_int (marker : Nat) (bs : List Nat) :
    Except PyErr (Val × List Nat) :=
  .ok (.int (-((marker &&& 0x0F : Nat) : Int)), bs)

/-- STRUCTURE_SIGNATURE_MAP from messaging.py: namedtuple name and number of
argument fields per known signature. -/
def sigArity (sig : Nat) : Option (String × Nat) :=
  if sig = 0x01 then some ("Init", 2)
  else if sig = 0x71 then some ("Detail", 1)
  else if sig = 0x7F then some ("Summary", 1)
  else if sig = 0x70 then some ("Summary", 1)
  else if sig = 0x7E then some ("Summary", 1)
  else if sig = 0x10 then some ("Run", 2)
  else if sig = 0x4E then some ("Node", 3)
  else if sig = 0x52 then some ("Relationship", 5)
  else if sig = 0x50 then some ("Path", 3)
  else if sig = 0x72 then some ("UnboundRelationship", 3)
  else Option.none

/-- The field/element loop: decode a fixed number of values in sequence
with the given value decoder (unpack in the source's module scope). -/
def unpackSeq (u : List Nat → Except PyErr (Val × List Nat)) :
    Nat → List Nat → Except PyErr (List Val × List Nat)
  | 0, bs => .ok ([], bs)
  | n + 1, bs => do
    let (v, bs) ← u bs
    let (vs, rest) ← unpackSeq u n bs
    .ok (v :: vs, rest)

/-- The pair loop of unpack_map: decode key then value, dict-assign. -/
def unpackPairs (u : List Nat → Except PyErr (Val × List Nat)) :
    Nat → List (Val × Val) → List Nat →
    Except PyErr (List (Val × Val) × List Nat)
  | 0, acc, bs => .ok (acc, bs)
  | n + 1, acc, bs => do
    let (k, bs) ← u bs
    let (v, bs) ← u bs
    unpackPairs u n (dictInsert acc k v) bs

/-- unpack_list from messaging.py: size from the marker tier, then size
recursively decoded elements. -/
def unpack_list (u : List Nat → Except PyErr (Val × List Nat))
    (marker : Nat) (bs : List Nat) : Except PyErr (Val × List Nat) := do
  let (size, bs) ←
    if marker &&& 0xF0 = 0x90 then pure (marker &&& 0x0F, bs)
    else if marker = 0xD4 then do
      let (b, r) ← readN 1 bs; pure (beVal b, r)
    else if marker = 0xD5 then do
      let (b, r) ← readN 2 bs; pure (beVal b, r)
    else if marker = 0xD6 then do
      let (b, r) ← readN 4 bs; pure (beVal b, r)
    else .error .protocolError
  let (xs, rest) ← unpackSeq u size bs
  .ok (.list xs, rest)

/-- unpack_map from messaging.py: size pairs decoded into a fresh dict. -/
def unpack_map (u : List Nat → Except PyErr (Val × List Nat))
    (marker : Nat) (bs : List Nat) : Except PyErr (Val × List Nat) := do
  let (size, bs) ←
    if marker &&& 0xF0 = 0xA0 then pure (marker &&& 0x0F, bs)
    else if marker = 0xD8 then do
      let (b, r) ← readN 1 bs; pure (beVal b, r)
    else if marker = 0xD9 then do
      let (b, r) ← readN 2 bs; pure (beVal b, r)
    else if marker = 0xDA then do
      let (b, r) ← readN 4 bs; pure (beVal b, r)
    else .error .protocolError
  let (kvs, rest) ← unpackPairs u size [] bs
  .ok (.dict kvs, rest)

/-- unpack_structure from messaging.py: size from the marker tier, then the
8-bit signature. A size of 0 returns zero_arg_message(signature) at once,
before the signature map is consulted; otherwise an unknown signature
raises ProtocolError and a known one decodes its fixed number of fields. -/
def unpack_structure (u : List Nat → Except PyErr (Val × List Nat))
    (marker : Nat) (bs : List Nat) : Except PyErr (Val × List Nat) := do
  let (size, bs) ←
    if marker &&& 0xF0 = 0xB0 then pure (marker &&& 0x0F, bs)
    else if marker = 0xDC then do
      let (b, r) ← readN 1 bs; pure (beVal b, r)
    else if marker = 0xDD then do
      let (b, r) ← readN 2 bs; pure (beVal b, r)
    else .error .protocolError
  let (signature, bs) ← read1 bs
  if size = 0 then .ok (.struct "ZeroArgMsg" signature [], bs)
  else
    match sigArity signature with
    | Option.none => .error .protocolError
    | some (name, numArgs) => do
      let (fields, rest) ← unpackSeq u numArgs bs
      .ok (.struct name signature fields, rest)

/-- The DESERIALIZERS table from messaging.py keyed as in unpack; a missing
key raises ProtocolError. -/
def deserializerFor (u : List Nat → Except PyErr (Val × List Nat))
    (key marker : Nat) (bs : List Nat) : Except PyErr (Val × List Nat) :=
  if key = 8 then unpack_str marker bs
  else if key = 9 then unpack_list u marker bs
  else if key = 10 then unpack_map u marker bs
  else if key = 11 then unpack_structure u marker bs
  else if key = 15 then unpack_neg_tiny_int marker bs
  else if key = 48 then unpack_null_float_or_bool marker bs
  else if key = 50 then unpack_int marker bs
  else if key = 52 then unpack_str marker bs
  else if key = 53 then unpack_list u marker bs
  else if key = 54 then unpack_map u marker bs
  else if key = 55 then unpack_structure u marker bs
  else .error .protocolError

/-- unpack from messaging.py, fuel-bounded on nesting depth. The marker
dispatch: markers at or below the structure tiny maximum 0xBF or at or
above 0xF0 use the high nibble as the DESERIALIZERS key (tiny positive
ints return the marker itself); all other markers use marker >> 2. -/
def unpackF : Nat → List Nat → Except PyErr (Val × List Nat)
  | 0, _ => .error .outOfFuel
  | fuel + 1, bs => do
    let (marker, rest) ← read1 bs
    if marker ≤ 0xBF ∨ 0xF0 ≤ marker then
      if marker ≤ 0x7F then .ok (.int marker, rest)
      else deserializerFor (unpackF fuel) (marker >>> 4) marker rest
    else deserializerFor (unpackF fuel) (marker >>> 2) marker rest

/-- unpack applied with depth budget 1000: CPython's default recursion
limit, past which the Python original raises RecursionError anyway. -/
def unpack (bs : List Nat) : Except PyErr (Val × List Nat) :=
  unpackF 1000 bs

/-- ChunkedWriteBuffer state from asyncbolt/buffer.py. The in-memory BytesIO
objects are carried as byte lists; the remaining-capacity counter is an
integer exactly as in Python, where it may go negative in expressions. -/
structure WBuf where
  maxChunkSize : Nat
  queue : List (List Nat)
  incoming : List Nat
  currentBuf : List Nat
  currentBufSize : Nat
  currentBufRemaining : Int
deriving DecidableEq, Repr

/-- ChunkedWriteBuffer.__init__ with the given max_chunk_size. -/
def WBuf.new (maxChunkSize : Nat) : WBuf :=
  ⟨maxChunkSize, [], [], [], 0, maxChunkSize⟩

/-- ChunkedWriteBuffer.write: append to the incoming accumulator. -/
def WBuf.write (wb : WBuf) (data : List Nat) : WBuf :=
  { wb with incoming := wb.incoming ++ data }

/-- ChunkedWriteBuffer.append_and_reset_buffer. The guard in the source is
`if self._current_buf:` on an io.BytesIO object, which is always truthy, so
the body always runs. -/
def WBuf.appendAndResetBuffer (wb : WBuf) : WBuf :=
  { wb with queue := wb.queue ++ [wb.currentBuf], currentBuf := [],
            currentBufRemaining := (wb.maxChunkSize : Int),
            currentBufSize := 0 }

/-- struct.Struct of big-endian H: packing rejects values outside 0..65535
with struct.error. -/
def pack_uint_16 (n : Int) : Except PyErr (List Nat) :=
  if 0 ≤ n ∧ n < 65536 then .ok (beBytes 2 n.toNat) else .error .structError

/-- ChunkedWriteBuffer.write_eof as written in buffer.py, which requires the
end-marker bytes as an argument. When header, payload and end marker do not
fit in the current chunk, the source writes a partial chunk, seals the
current buffer and hands the remainder back to write: it does NOT call
write_eof again, so the remainder stays in the incoming accumulator and no
end marker is emitted for it. -/
def WBuf.write_eof (wb : WBuf) (eof : List Nat) : WBuf × Option PyErr :=
  let data := wb.incoming
  let wb := { wb with incoming := [] }
  let wb := if wb.currentBufRemaining ≤ 0 then wb.appendAndResetBuffer else wb
  let dataSize := data.length
  let dataSizePlus4 : Int := (dataSize : Int) + 4
  if dataSizePlus4 ≤ wb.currentBufRemaining then
    match pack_uint_16 dataSize with
    | .error e => (wb, some e)
    | .ok hdr =>
      ({ wb with currentBuf := wb.currentBuf ++ hdr ++ data ++ eof,
                 currentBufRemaining := wb.currentBufRemaining - dataSizePlus4,
                 currentBufSize := wb.currentBufSize + dataSizePlus4.toNat },
       Option.none)
  else
    let chunkSize : Int := min (wb.currentBufRemaining - 2) (dataSize : Int)
    match pack_uint_16 chunkSize with
    | .error e => (wb, some e)
    | .ok hdr =>
      let cs := chunkSize.toNat
      let wb := { wb with currentBuf := wb.currentBuf ++ hdr ++ data.take cs }
      let wb := wb.appendAndResetBuffer
      (wb.write (data.drop cs), Option.none)

/-- ChunkedWriteBuffer.getvalue: seal the current buffer and pop the head of
the queue. -/
def WBuf.getvalue (wb : WBuf) : List Nat :=
  wb.appendAndResetBuffer.queue.headD []

/-- ChunkedWriteBuffer.flush: seal the current buffer and drain the whole
queue (the yielded blobs, in order). -/
def WBuf.flushAll (wb : WBuf) : List (List Nat) × WBuf :=
  let wb := wb.appendAndResetBuffer
  (wb.queue, { wb with queue := [] })

/-- pack_structure from messaging.py: tiny / STRUCT_8 / STRUCT_16 header
from len(params), raising BufferError at 65536 fields before writing, then
the marker byte, then the packed params (written into the incoming
accumulator through buf.write). -/
def pack_structure (marker : Nat) (buf : WBuf) (params : List Val) :
    WBuf × Option PyErr :=
  let size := params.length
  let hdr? : Except PyErr (List Nat) :=
    if size < 16 then .ok [0xB0 ||| size]
    else if size < 256 then .ok (0xDC :: beBytes 1 size)
    else if size < 65536 then .ok (0xDD :: beBytes 2 size)
    else .error .bufferError
  match hdr? with
  | .error e => (buf, some e)
  | .ok hdr =>
    let buf := (buf.write hdr).write [marker]
    match packSeq pack params buf.incoming with
    | (inc', err?) => ({ buf with incoming := inc' }, err?)

/-- serialize_message from messaging.py with an explicit buffer argument
(the source creates ChunkedWriteBuffer(8192) when none is passed). After
pack_structure it runs buf.write_eof() with no argument; write_eof in
buffer.py requires the eof bytes as a positional argument, so this call
raises TypeError. -/
def serialize_message (signature : Nat) (params : List Val) (buf : WBuf) :
    WBuf × Option PyErr :=
  match pack_structure signature buf params with
  | (buf, some e) => (buf, some e)
  | (buf, Option.none) => (buf, some PyErr.typeError)

/-- Reference reading of a chunked logical message, fuel-bounded: a
sequence of non-empty chunk bodies terminated by exactly the 0x0000
sentinel, consuming the whole stream. Returns the bodies, or none when the
stream is not of this shape. -/
def chunkBodiesF : Nat → List Nat → Option (List (List Nat))
  | 0, _ => Option.none
  | fuel + 1, bs =>
    match bs with
    | hi :: lo :: rest =>
      let len := hi * 256 + lo
      if len = 0 then if rest = [] then some [] else Option.none
      else if len ≤ rest.length then
        (chunkBodiesF fuel (rest.drop len)).map (rest.take len :: ·)
      else Option.none
    | _ => Option.none

/-- chunkBodiesF with enough fuel for its input (every step consumes at
least three bytes). -/
def chunkBodies (bs : List Nat) : Option (List (List Nat)) :=
  chunkBodiesF (bs.length + 1) bs

/-- ChunkedReadBuffer state from asyncbolt/buffer.py (the parts driving
read and _ensure_buffer; the incoming accumulator is not needed here). -/
structure RBuf where
  queue : List (List Nat)
  numQueued : Nat
  currentBuf : Option (List Nat)
  currentBufSize : Nat
  currentBufReady : Bool
  currentPos : Nat
deriving DecidableEq, Repr

/-- ChunkedReadBuffer.__init__. -/
def RBuf.new : RBuf := ⟨[], 0, Option.none, 0, false, 0⟩

/-- ChunkedReadBuffer.at_eof: the cursor sits at the end of the current
buffer (initially 0 = 0). -/
def RBuf.atEof (rb : RBuf) : Bool := rb.currentPos == rb.currentBufSize

/-- ChunkedReadBuffer._ensure_buffer: at eof, dequeue the next message or
raise BufferError on an empty queue. -/
def RBuf.ensureBuffer (rb : RBuf) : Except PyErr RBuf :=
  if rb.atEof then
    match rb.queue with
    | [] => .error .bufferError
    | b :: rest =>
      .ok { queue := rest, numQueued := rb.numQueued - 1, currentBuf := some b,
            currentBufSize := b.length, currentBufReady := true,
            currentPos := 0 }
  else .ok rb

/-- What ChunkedReadBuffer.read hands back to its caller: either the sliced
bytes, or - in the branch where too few bytes remain in the current buffer -
a BufferError INSTANCE returned as an ordinary value (the source says
return, not raise, there). -/
inductive ReadRet where
  | bytes (bs : List Nat)
  | errObject
deriving DecidableEq, Repr

/-- ChunkedReadBuffer.read from buffer.py. A raise propagates as .error;
the short-read branch returns normally with a BufferError object. -/
def RBuf.read (rb : RBuf) (num : Nat) : Except PyErr (ReadRet × RBuf) := do
  let rb ← rb.ensureBuffer
  if rb.currentBufSize < rb.currentPos + num then
    .ok (.errObject, rb)
  else
    let result := ((rb.currentBuf.getD []).drop rb.currentPos).take num
    let rb := { rb with currentPos := rb.currentPos + num }
    let rb :=
      if rb.atEof && rb.numQueued == 0 then
        { rb with currentBufReady := false }
      else rb
    .ok (.bytes result, rb)

/-- Python slice data[lo:hi] with clamping at the ends. -/
def sliceClamp (bs : List Nat) (lo hi : Nat) : List Nat :=
  (bs.take hi).drop lo

/-- Callback events fired by BoltParser.feed_data: on_chunk with the chunk
payload, and on_message_complete. -/
inductive PEvent where
  | chunk (payload : List Nat)
  | complete
deriving DecidableEq, Repr

/-- Outcome of one BoltParser.feed_data call: the loop ran to completion
with the events fired in order; or an exception escaped after the listed
events; or the loop stopped advancing current_pos (the source only advances
it when the two bytes after a chunk equal the end marker, so otherwise the
same iteration repeats forever re-firing on_chunk). -/
inductive FeedResult where
  | done (evs : List PEvent)
  | raised (evs : List PEvent) (e : PyErr)
  | stuck (evs : List PEvent)
deriving DecidableEq, Repr

/-- The while loop of BoltParser.feed_data. unpack_uint_16 on a slice of
fewer than two bytes raises struct.error. The fuel only bounds iterations;
the wrapper supplies more than any advancing run can use. -/
def feedLoop : Nat → List Nat → Nat → List PEvent → FeedResult
  | 0, _, _, evs => .stuck evs
  | fuel + 1, data, pos, evs =>
    if pos < data.length then
      let hdr := sliceClamp data pos (pos + 2)
      if hdr.length = 2 then
        let payloadLen := beVal hdr
        let rightBound := pos + 2 + payloadLen
        let ck := sliceClamp data (pos + 2) rightBound
        let evs := evs ++ [.chunk ck]
        if sliceClamp data rightBound (rightBound + 2) = [0, 0] then
          feedLoop fuel data (rightBound + 2) (evs ++ [.complete])
        else .stuck evs
      else .raised evs .structError
    else .done evs

/-- BoltParser.feed_data from parser.py. The parser object keeps NO state
between calls other than the two callbacks, so each call starts at
position 0 of exactly the bytes it was handed. -/
def feed_data (data : List Nat) : FeedResult :=
  if data.length = 0 then .done []
  else feedLoop (data.length + 1) data 0 []

/-- The server protocol states from protocol.py. -/
inductive SState where
  | uninitialized
  | ready
  | running
  | failed
  | closing
  | closed
deriving DecidableEq, Repr

/-- The empty metadata dict passed to success({}) and friends. -/
def emptyMap : Val := Val.dict []

/-- Code points of an ASCII Lean string, for Python str literals. -/
def strCps (s : String) : List Nat := s.data.map Char.toNat

/-- BoltServerProtocol.get_server_metadata from protocol.py. -/
def serverMetadata : Val :=
  Val.dict [(Val.str (strCps "server"), Val.str (strCps "AsyncBolt/1.0"))]

/-- An outbound message handed to serialize_message by the packing helpers
record / success / failure / ignored of BoltServerProtocol. -/
inductive Emit where
  | successMsg (meta : Val)
  | failureMsg (meta : Val)
  | ignoredMsg (meta : Val)
  | recordMsg (fields : Val)
deriving Repr

/-- One effect of processing an inbound message: a subclass hook call, an
outbound message written to the write buffer, a flush of the write buffer
to the transport, or the write buffer being replaced by a fresh one. -/
inductive Eff where
  | hook (name : String)
  | emit (m : Emit)
  | flushToTransport
  | newWriteBuffer
deriving Repr

/-- BoltServerProtocol.reset from protocol.py: on_reset hook, fresh write
buffer, one IGNORED({}) per message still queued in the read buffer, state
to READY (returned by the caller), SUCCESS({}), flush. -/
def resetEffects (readQueueLen : Nat) : List Eff :=
  [.hook "on_reset", .newWriteBuffer] ++
    List.replicate readQueueLen (Eff.emit (.ignoredMsg emptyMap)) ++
    [.emit (.successMsg emptyMap), .flushToTransport]

/-- One iteration of BoltServerProtocol.handle_incoming from protocol.py,
dispatching one decoded inbound message by the current state and the
message signature. readQueueLen is the number of messages still queued in
the read buffer, which the RESET branch drains. Emissions write to the
write buffer through the packing helpers; hooks are the base-class
extension points. Returns the next state and the effects in order. -/
def handle_message (st : SState) (readQueueLen : Nat) (sig : Nat) :
    SState × List Eff :=
  match st with
  | .ready =>
    if sig = 0x10 then (.running, [.hook "on_run"])
    else if sig = 0x0F then (.ready, resetEffects readQueueLen)
    else (.failed, [.emit (.failureMsg emptyMap), .flushToTransport])
  | .running =>
    if sig = 0x3F then (.ready, [.hook "on_pull_all"])
    else if sig = 0x2F then (.ready, [.hook "on_discard_all", .newWriteBuffer])
    else (.failed, [.emit (.failureMsg emptyMap), .flushToTransport])
  | .failed =>
    if sig = 0x0E then
      (.ready, [.hook "on_ack_failure", .emit (.successMsg emptyMap),
                .flushToTransport])
    else if sig = 0x0F then (.ready, resetEffects readQueueLen)
    else (.failed, [.emit (.ignoredMsg emptyMap), .flushToTransport])
  | .uninitialized =>
    if sig = 0x01 then
      (.ready, [.hook "on_init", .emit (.successMsg serverMetadata),
                .flushToTransport])
    else (.failed, [.emit (.failureMsg emptyMap), .flushToTransport])
  | _ => (.failed, [.emit (.failureMsg emptyMap), .flushToTransport])

/-- The names bound at module level in asyncbolt/messaging.py, in source
order: imported names, namedtuples, handshake and struct helper constants,
enum classes, functions, and the three dispatch tables. -/
def messagingTopLevelNames : List String :=
  ["collections", "struct", "OrderedDict", "IntEnum", "buffer",
   "ProtocolError",
   "zero_arg_message", "init", "run", "detail", "summary", "node",
   "relationship", "path", "unbound_relationship",
   "MAGIC", "V1", "NULL_V", "unpack_magic", "unpack_v", "unpack_4v",
   "END_MARKER", "pack_uint_16", "pack_uint_8", "pack_sint_8",
   "pack_header_uint_8", "pack_header_uint_16", "pack_header_uint_32",
   "unpack_uint_8", "unpack_uint_16", "unpack_uint_32",
   "pack_header_sint_8", "pack_header_sint_16", "pack_header_sint_32",
   "pack_header_sint_64", "unpack_sint_8", "unpack_sint_16",
   "unpack_sint_32", "unpack_sint_64", "pack_double", "unpack_double",
   "Boolean", "Integer", "String", "List", "Map", "Structure", "Marker",
   "Message", "GraphStructure",
   "serialize_message", "pack_structure", "pack_bool", "pack_str",
   "pack_float", "pack_int", "pack_map", "pack_list", "pack", "unpack",
   "deserialize_message", "unpack_structure", "unpack_null_float_or_bool",
   "unpack_int", "unpack_str", "unpack_neg_tiny_int", "unpack_list",
   "unpack_map", "DESERIALIZERS", "SERIALIZERS", "STRUCTURE_SIGNATURE_MAP"]

/-- The names client.py line 8 imports from asyncbolt.messaging. -/
def clientMessagingImportList : List String := ["Message", "pack_message"]

/-!
Model of ServerSession (asyncbolt/server.py) processing pipelined RUN /
PULL_ALL pairs on one connection. Two cooperative tasks touch the session:
the transport reader, which runs handle_incoming synchronously per decoded
message (on_run appends a future to the waiters deque and puts the task on
the asyncio queue; on_pull_all pops the left waiter and resolves it), and
the single _run_task_queue worker task, which dequeues one task, runs it,
writes SUCCESS then RECORD into the write buffer, awaits the task's future,
writes the final SUCCESS, flushes the write buffer to the transport and
only then spawns the next worker. Await points split the worker into three
atomic segments; the scheduler below interleaves reader and worker steps
arbitrarily, which includes every asyncio schedule. -/

/-- An inbound client message of the pipelined happy path. -/
inductive CMsg where
  | runMsg
  | pullAll
deriving DecidableEq, Repr

/-- The worker task between await points: parked on task_queue.get();
executing the run coroutine of run i; or suspended on run i's future after
buffering SUCCESS and RECORD. -/
inductive WPhase where
  | waitingGet
  | runningTask (i : Nat)
  | awaitingPull (i : Nat)
deriving DecidableEq, Repr

/-- A response of run i as it reaches the write buffer and transport: the
run-confirmation SUCCESS (result_available_after), the RECORD carrying the
run's fields, and the final SUCCESS (result_consumed_after). -/
inductive REvent where
  | runSuccess (i : Nat)
  | recordOf (i : Nat)
  | pullSuccess (i : Nat)
deriving DecidableEq, Repr

/-- Connection state shared by the reader and the worker: undelivered
inbound messages, the protocol state, the waiters deque of pending futures,
the set of resolved futures, the task queue, the id for the next run, the
worker phase, the unflushed write buffer, the bytes already flushed to the
transport, and the number of fully answered runs. -/
structure Sys where
  inbox : List CMsg
  pstate : SState
  waiters : List Nat
  fired : List Nat
  taskQueue : List Nat
  nextRun : Nat
  phase : WPhase
  wbuf : List REvent
  transport : List REvent
  done : Nat
deriving DecidableEq, Repr

/-- A pipeline of n RUN / PULL_ALL pairs, in wire order. -/
def pipelineScript : Nat → List CMsg
  | 0 => []
  | n + 1 => CMsg.runMsg :: CMsg.pullAll :: pipelineScript n

/-- The session right after initialization: READY, empty queues, the worker
parked on task_queue.get(). -/
def initSys (n : Nat) : Sys :=
  ⟨pipelineScript n, .ready, [], [], [], 0, .waitingGet, [], [], 0⟩

/-- One scheduler step of the connection. recvRun and recvPull are the
reader running one handle_incoming dispatch (protocol.py) with the
ServerSession hooks (server.py): on_run appends the new run's future to
waiters and enqueues its task; on_pull_all pops the left waiter and
resolves it. workerGet, workerEmit and workerFinish are the three atomic
segments of _run_task_queue separated by its await points; workerFinish
flushes the write buffer to the transport and spawns the next worker. -/
inductive Step : Sys → Sys → Prop where
  | recvRun (s : Sys) (rest : List CMsg)
      (hin : s.inbox = CMsg.runMsg :: rest) (hst : s.pstate = .ready) :
      Step s { s with
                 inbox := rest,
                 pstate := SState.running,
                 waiters := s.waiters ++ [s.nextRun],
                 taskQueue := s.taskQueue ++ [s.nextRun],
                 nextRun := s.nextRun + 1 }
  | recvPull (s : Sys) (rest : List CMsg) (w : Nat) (ws : List Nat)
      (hin : s.inbox = CMsg.pullAll :: rest) (hst : s.pstate = .running)
      (hw : s.waiters = w :: ws) :
      Step s { s with
                 inbox := rest,
                 pstate := SState.ready,
                 waiters := ws,
                 fired := s.fired ++ [w] }
  | workerGet (s : Sys) (i : Nat) (rest : List Nat)
      (hph : s.phase = .waitingGet) (hq : s.taskQueue = i :: rest) :
      Step s { s with
                 taskQueue := rest,
                 phase := WPhase.runningTask i }
  | workerEmit (s : Sys) (i : Nat) (hph : s.phase = .runningTask i) :
      Step s { s with
                 phase := WPhase.awaitingPull i,
                 wbuf := s.wbuf ++ [REvent.runSuccess i, REvent.recordOf i] }
  | workerFinish (s : Sys) (i : Nat) (hph : s.phase = .awaitingPull i)
      (hf : i ∈ s.fired) :
      Step s { s with
                 phase := WPhase.waitingGet,
                 wbuf := [],
                 transport := s.transport ++ s.wbuf ++ [REvent.pullSuccess i],
                 done := s.done + 1 }

/-- States reachable from the initialized session under any schedule. -/
inductive Reach (n : Nat) : Sys → Prop where
  | init : Reach n (initSys n)
  | step {s s' : Sys} : Reach n s → Step s s' → Reach n s'

/-- The fully ordered transport content after d completed runs: for each
run in order, its run SUCCESS, its RECORD, its final SUCCESS. -/
def orderedResponses (d : Nat) : List REvent :=
  (List.range d).flatMap fun i =>
    [.runSuccess i, .recordOf i, .pullSuccess i]

/-- 1 while the worker holds a dequeued task, 0 while it is parked. -/
def WPhase.bump : WPhase → Nat
  | .waitingGet => 0
  | _ => 1

/-- The write buffer content determined by the worker phase. -/
def WPhase.wbufOf : WPhase → List REvent
  | .awaitingPull i => [.runSuccess i, .recordOf i]
  | _ => []

/-- The inductive invariant of the scheduler: the transport holds exactly
the ordered blocks of the completed runs, the write buffer matches the
worker phase, the worker is busy with run number done, and the task queue
holds the consecutive not-yet-started run ids. -/
def SysInv (s : Sys) : Prop :=
  s.transport = orderedResponses s.done ∧
  s.wbuf = s.phase.wbufOf ∧
  (∀ i, s.phase = .runningTask i ∨ s.phase = .awaitingPull i → i = s.done) ∧
  s.taskQueue =
    List.range' (s.done + s.phase.bump)
      (s.nextRun - (s.done + s.phase.bump)) ∧
  s.done + s.phase.bump ≤ s.nextRun

/-!
Claim theorems.
-/

/-- C1: the claim asserts decode(encode(v)) = v for every PackStream value,
in particular over the whole tiny-negative integer range -16..-1. The code
violates it at v = -16: pack_int writes the single byte 0xF0 | abs(-16) =
0xF0, and unpack dispatches marker 0xF0 to unpack_neg_tiny_int, which
returns -(0xF0 & 0x0F) = 0. So packing -16 and unpacking yields 0, silently
corrupting the value. -/
theorem c1_roundtrip_corrupts_neg16 :
    pack (Val.int (-16)) [] = ([0xF0], Option.none) ∧
    unpack [0xF0] = Except.ok (Val.int 0, []) := by
  exact ⟨rfl, rfl⟩

/-- C10: pack encodes None as the single byte 0xC0, and for a value whose
exact type is outside the SERIALIZERS table (any foreign type, including
the decoded-structure namedtuples) it raises ProtocolError from the failed
table lookup before anything is written, leaving the buffer unchanged. -/
theorem c10_pack_unknown_type :
    (∀ ty buf, pack (Val.other ty) buf = (buf, some PyErr.protocolError)) ∧
    (∀ name sig fields buf,
      pack (Val.struct name sig fields) buf =
        (buf, some PyErr.protocolError)) ∧
    (∀ buf, pack Val.null buf = (buf ++ [0xC0], Option.none)) := by
  exact ⟨fun _ _ => rfl, fun _ _ _ _ => rfl, fun _ => rfl⟩

/-- C9: the claim says serialize_message with the RECORD signature and
params ([1],) produces exactly 00 04 B1 71 91 01 00 00. In the code,
pack_structure does buffer the structure bytes B1 71 91 01, but the
following buf.write_eof() call passes no argument while write_eof in
buffer.py requires the end-marker bytes positionally, so serialize_message
raises TypeError and never yields the message (the repository's own test
test_pack_record expects the claimed bytes). The second conjunct shows the
claimed bytes do appear once the end-marker argument is supplied. -/
theorem c9_record_serialization_raises :
    serialize_message 0x71 [Val.list [Val.int 1]] (WBuf.new 8192) =
      ({ maxChunkSize := 8192, queue := [],
         incoming := [0xB1, 0x71, 0x91, 0x01], currentBuf := [],
         currentBufSize := 0, currentBufRemaining := 8192 },
       some PyErr.typeError) ∧
    (((pack_structure 0x71 (WBuf.new 8192)
        [Val.list [Val.int 1]]).1.write_eof [0x00, 0x00]).1.getvalue =
      [0x00, 0x04, 0xB1, 0x71, 0x91, 0x01, 0x00, 0x00]) := by
  exact ⟨rfl, rfl⟩

/-- C2: the claim describes payloads sealed by an argumentless write_eof
whose chunks concatenate to the payload and end in one 0x0000 sentinel. In
the code, write_eof requires the end-marker argument, so the argumentless
call made for every serialized message raises TypeError (first conjunct).
And even calling write_eof with the end marker supplied: on a capacity-8
buffer with a 10-byte payload the split path emits one 6-byte chunk, parks
the remaining 4 payload bytes back in the incoming accumulator without ever
sealing them, and emits no 0x0000 sentinel, so the flushed bytes are not a
chunking of the payload (second and third conjuncts). -/
theorem c2_write_eof_violates_chunking :
    (serialize_message 0x3F [] (WBuf.new 8192)).2 = some PyErr.typeError ∧
    ((WBuf.new 8).write [1, 2, 3, 4, 5, 6, 7, 8, 9, 10]).write_eof
        [0x00, 0x00] =
      ({ maxChunkSize := 8, queue := [[0, 6, 1, 2, 3, 4, 5, 6]],
         incoming := [7, 8, 9, 10], currentBuf := [], currentBufSize := 0,
         currentBufRemaining := 8 }, Option.none) ∧
    chunkBodies
        ((((WBuf.new 8).write [1, 2, 3, 4, 5, 6, 7, 8, 9, 10]).write_eof
          [0x00, 0x00]).1.flushAll.1.flatten) = Option.none := by
  exact ⟨rfl, rfl, rfl⟩

/-- C7: the claim says read(n) raises a buffer error whenever fewer than n
bytes remain in the head message and nothing further is queued. In the code
that is true only when the cursor sits exactly at the end of the current
message (then _ensure_buffer raises, second conjunct); mid-message with too
few bytes left, read RETURNS a BufferError instance as its result instead
of raising it (first conjunct: head message of 2 bytes, cursor 0, empty
queue, read(3) returns normally). -/
theorem c7_short_read_returns_error_object :
    RBuf.read ⟨[], 0, some [10, 20], 2, true, 0⟩ 3 =
      Except.ok (ReadRet.errObject, ⟨[], 0, some [10, 20], 2, true, 0⟩) ∧
    RBuf.read RBuf.new 1 = Except.error PyErr.bufferError := by
  exact ⟨rfl, rfl⟩

/-- C3: the claim says feeding a valid chunked stream split at any byte
boundary produces the same events as feeding it whole. BoltParser keeps no
state between feed_data calls, so for the valid stream 00 01 41 00 00 (one
1-byte chunk plus end marker) feeding it whole fires on_chunk and
on_message_complete (first conjunct), while feeding the k = 1 split means
the first call gets the single byte 00 and raises struct.error from
unpacking a 16-bit length out of a 1-byte slice, firing no events (second
conjunct). -/
theorem c3_split_feed_diverges :
    feed_data [0x00, 0x01, 0x41, 0x00, 0x00] =
      FeedResult.done [PEvent.chunk [0x41], PEvent.complete] ∧
    feed_data [0x00] = FeedResult.raised [] PyErr.structError := by
  exact ⟨rfl, rfl⟩

/-- C5: the claim describes the failure-recovery path of ClientSession.run,
which sends the configured recovery message by calling pack_message
imported from asyncbolt.messaging. No such name is defined at module level
in messaging.py, so the import on client.py line 8 raises ImportError and
the recovery message can never be sent. -/
theorem c5_pack_message_missing :
    "pack_message" ∈ clientMessagingImportList ∧
    "pack_message" ∉ messagingTopLevelNames := by
  constructor
  · simp [clientMessagingImportList]
  · simp [messagingTopLevelNames]

/-- C8 counterexample: the claim says every signature outside the known
signature map raises a protocol error for EVERY declared size including
size 0. But unpack_structure returns zero_arg_message(signature) for size 0
before ever consulting the map: decoding B0 99 (tiny structure, size 0,
unknown signature 0x99) succeeds with no error, even though 0x99 is not in
STRUCTURE_SIGNATURE_MAP. -/
theorem c8_size0_unknown_sig_no_error :
    unpack [0xB0, 0x99] =
      Except.ok (Val.struct "ZeroArgMsg" 0x99 [], []) ∧
    sigArity 0x99 = Option.none := by
  exact ⟨rfl, rfl⟩

/-- C8 amended: the structure decoder reads the size, reads the 8-bit
signature, and for declared size at least 1 an unknown signature raises a
protocol error, under every header form (tiny, STRUCT_8, STRUCT_16); for
declared size 0 it instead returns a zero-argument message for ANY
signature, without consulting the signature map. Known signatures decode
exactly their mapped field count (final conjunct: a size-1 RECORD). -/
theorem c8_unknown_signature_amended
    (u : List Nat → Except PyErr (Val × List Nat)) (marker sig hi lo : Nat)
    (size : Nat) (rest : List Nat) (hsig : sigArity sig = Option.none)
    (hmk : marker &&& 0xF0 = 0xB0) (h255 : size ≤ 255) :
    (marker &&& 0x0F ≠ 0 →
      unpack_structure u marker (sig :: rest) =
        Except.error PyErr.protocolError) ∧
    (marker &&& 0x0F = 0 →
      unpack_structure u marker (sig :: rest) =
        Except.ok (Val.struct "ZeroArgMsg" sig [], rest)) ∧
    (1 ≤ size →
      unpack_structure u 0xDC (size :: sig :: rest) =
        Except.error PyErr.protocolError) ∧
    (1 ≤ hi * 256 + lo →
      unpack_structure u 0xDD (hi :: lo :: sig :: rest) =
        Except.error PyErr.protocolError) ∧
    unpack [0xB1, 0x71, 0x91, 0x01] =
      Except.ok (Val.struct "Detail" 0x71 [Val.list [Val.int 1]], []) := by
  refine ⟨?_, ?_, ?_, ?_, rfl⟩
  · intro h0
    simp [unpack_structure, hmk, hsig, h0, read1, Bind.bind, Except.bind,
      Pure.pure, Except.pure]
  · intro h0
    simp [unpack_structure, hmk, h0, read1, Bind.bind, Except.bind,
      Pure.pure, Except.pure]
  · intro h1
    have hA : ¬ ((220 : Nat) &&& 240 = 176) := by decide
    have hsz : size ≠ 0 := by omega
    simp [unpack_structure, hsig, hsz, hA, readN, read1, beVal, Bind.bind,
      Except.bind, Pure.pure, Except.pure]
  · intro h1
    have hA : ¬ ((221 : Nat) &&& 240 = 176) := by decide
    have hsz : ¬ (hi = 0 ∧ lo = 0) := by omega
    simp [unpack_structure, hsig, hA, hsz, readN, read1, beVal, Bind.bind,
      Except.bind, Pure.pure, Except.pure]

/-- C8 witness: the amended theorem applied at the tiny marker 0xB5 (size
5), STRUCT_8 size 1 and STRUCT_16 size 1, all with unknown signature 0x99,
against the full decoder as the field decoder. -/
theorem c8_unknown_signature_amended_witness :
    unpack_structure (unpackF 999) 0xB5 [0x99] =
      Except.error PyErr.protocolError ∧
    unpack_structure (unpackF 999) 0xB0 [0x99] =
      Except.ok (Val.struct "ZeroArgMsg" 0x99 [], []) ∧
    unpack_structure (unpackF 999) 0xDC [1, 0x99] =
      Except.error PyErr.protocolError ∧
    unpack_structure (unpackF 999) 0xDD [0, 1, 0x99] =
      Except.error PyErr.protocolError := by
  have h := c8_unknown_signature_amended (unpackF 999) 0xB5 0x99 0 1 1 []
    (by decide) (by decide) (by decide)
  have h0 := c8_unknown_signature_amended (unpackF 999) 0xB0 0x99 0 1 1 []
    (by decide) (by decide) (by decide)
  exact ⟨h.1 (by decide), h0.2.1 (by decide), h.2.2.1 (by decide),
    h.2.2.2.1 (by decide)⟩

/-- C4: in the FAILED state, an ACK_FAILURE message moves the session to
READY and emits SUCCESS({}) (after the on_ack_failure hook, then a flush),
and any message whose signature is neither ACK_FAILURE (0x0E) nor RESET
(0x0F) leaves the state FAILED and emits IGNORED({}) (then a flush),
exactly as the FAILED branch of handle_incoming dispatches. -/
theorem c4_failed_state_dispatch (q sig : Nat) (hack : sig ≠ 0x0E)
    (hreset : sig ≠ 0x0F) :
    handle_message SState.failed q 0x0E =
      (SState.ready, [Eff.hook "on_ack_failure",
        Eff.emit (Emit.successMsg emptyMap), Eff.flushToTransport]) ∧
    handle_message SState.failed q sig =
      (SState.failed, [Eff.emit (Emit.ignoredMsg emptyMap),
        Eff.flushToTransport]) := by
  constructor
  · rfl
  · simp [handle_message, hack, hreset]

/-- C4 witness: the FAILED-state dispatch at queue length 0 with the RUN
signature 0x10 as the other message. -/
theorem c4_failed_state_dispatch_witness :
    handle_message SState.failed 0 0x0E =
      (SState.ready, [Eff.hook "on_ack_failure",
        Eff.emit (Emit.successMsg emptyMap), Eff.flushToTransport]) ∧
    handle_message SState.failed 0 0x10 =
      (SState.failed, [Eff.emit (Emit.ignoredMsg emptyMap),
        Eff.flushToTransport]) :=
  c4_failed_state_dispatch 0 0x10 (by decide) (by decide)

/-- Peeling one run off the ordered transport content. -/
theorem orderedResponses_succ (d : Nat) :
    orderedResponses (d + 1) =
      orderedResponses d ++
        [REvent.runSuccess d, REvent.recordOf d, REvent.pullSuccess d] := by
  simp [orderedResponses, List.range_succ]

/-- The scheduler invariant holds in the initial session state. -/
theorem sysInv_init (n : Nat) : SysInv (initSys n) := by
  refine ⟨rfl, rfl, ?_, rfl, by simp [initSys, WPhase.bump]⟩
  intro i hi
  rcases hi with hi | hi <;> simp [initSys] at hi

/-- The scheduler invariant is preserved by every step of either task. -/
theorem sysInv_step {s s' : Sys} (h : SysInv s) (hst : Step s s') :
    SysInv s' := by
  obtain ⟨ht, hw, hph, htq, hle⟩ := h
  cases hst with
  | recvRun rest hin hpst =>
    refine ⟨ht, hw, hph, ?_, ?_⟩ <;> dsimp only
    · rw [htq]
      have h1 : s.nextRun + 1 - (s.done + s.phase.bump) =
          (s.nextRun - (s.done + s.phase.bump)) + 1 := by omega
      rw [h1, List.range'_1_concat]
      have h2 : s.done + s.phase.bump +
          (s.nextRun - (s.done + s.phase.bump)) = s.nextRun := by omega
      rw [h2]
    · omega
  | recvPull rest w ws hin hpst hwaiters =>
    exact ⟨ht, hw, hph, htq, hle⟩
  | workerGet i rest hphase hq =>
    have hbump : s.phase.bump = 0 := by rw [hphase]; rfl
    rw [hq, hbump] at htq
    rcases hk : s.nextRun - (s.done + 0) with _ | k
    · rw [hk] at htq; simp [List.range'] at htq
    · rw [hk, List.range'_succ] at htq
      have h12 : i = s.done + 0 ∧ rest = List.range' (s.done + 0 + 1) k := by
        injection htq with h1 h2
        exact ⟨h1, h2⟩
      obtain ⟨hi, hrest⟩ := h12
      refine ⟨ht, ?_, ?_, ?_, ?_⟩ <;> dsimp only
      · rw [hw, hphase]; rfl
      · intro j hj
        rcases hj with hj | hj
        · injection hj with h3; omega
        · exact absurd hj (by simp)
      · rw [hrest]
        have hb : (WPhase.runningTask i).bump = 1 := rfl
        have h3 : s.nextRun - (s.done + 1) = k := by omega
        rw [hb, h3]
      · have hb : (WPhase.runningTask i).bump = 1 := rfl
        rw [hb]
        omega
  | workerEmit i hphase =>
    have hi : i = s.done := hph i (Or.inl hphase)
    have hwb : s.wbuf = [] := by rw [hw, hphase]; rfl
    refine ⟨ht, ?_, ?_, ?_, ?_⟩ <;> dsimp only
    · rw [hwb]; rfl
    · intro j hj
      rcases hj with hj | hj
      · exact absurd hj (by simp)
      · injection hj with h3; omega
    · rw [htq, hphase]
      rfl
    · rw [hphase] at hle; exact hle
  | workerFinish i hphase hf =>
    have hi : i = s.done := hph i (Or.inr hphase)
    have hwb : s.wbuf = [REvent.runSuccess i, REvent.recordOf i] := by
      rw [hw, hphase]; rfl
    refine ⟨?_, rfl, ?_, ?_, ?_⟩ <;> dsimp only
    · rw [ht, hwb, hi, orderedResponses_succ]
      simp
    · intro j hj
      rcases hj with hj | hj <;> exact absurd hj (by simp)
    · rw [htq, hphase]
      have hb : (WPhase.awaitingPull i).bump = 1 := rfl
      have hb2 : WPhase.waitingGet.bump = 0 := rfl
      rw [hb, hb2]
    · rw [hphase] at hle
      have hb : (WPhase.awaitingPull i).bump = 1 := rfl
      rw [hb] at hle
      have hb2 : WPhase.waitingGet.bump = 0 := rfl
      rw [hb2]
      omega

/-- C6: for every pipeline of RUN / PULL_ALL pairs and every cooperative
schedule of the reader and the single worker task, any reachable session
state has transported exactly the responses of the completed runs in run
order: run 0's SUCCESS, RECORD, final SUCCESS, then run 1's, and so on.
In particular the i-th run's confirmation SUCCESS, its RECORDs (this
server emits exactly one RECORD per run, contiguously by construction of
the blocks) and its final SUCCESS all precede every response of run
i + 1. -/
theorem c6_pipelined_run_ordering (n : Nat) (s : Sys) (h : Reach n s) :
    s.transport = orderedResponses s.done := by
  suffices hinv : SysInv s by exact hinv.1
  induction h with
  | init => exact sysInv_init n
  | step hr hst ih => exact sysInv_step ih hst

/-- C6 witness: the schedule run, pull, get, emit, finish of a 1-pair
pipeline reaches a state whose transport is the ordered block of run 0. -/
theorem c6_pipelined_run_ordering_witness :
    (Sys.mk [] SState.ready [] [0] [] 1 WPhase.waitingGet []
      [REvent.runSuccess 0, REvent.recordOf 0, REvent.pullSuccess 0]
      1).transport = orderedResponses 1 := by
  refine c6_pipelined_run_ordering 1 _ ?_
  exact Reach.step (Reach.step (Reach.step (Reach.step (Reach.step
    Reach.init
    (Step.recvRun _ [CMsg.pullAll] rfl rfl))
    (Step.recvPull _ [] 0 [] rfl rfl rfl))
    (Step.workerGet _ 0 [] rfl rfl))
    (Step.workerEmit _ 0 rfl))
    (Step.workerFinish _ 0 rfl (by decide))

end AsyncBolt
